import Mathlib

/-!
Shallow embedding of the ban-aware artwork selector of `src/App.jsx`
(the "veni-vici" single-page application), together with proofs of the
behavioural properties of its specification.

The embedding models:
  * the field-normalization helpers `safe` and `artistOf` (App.jsx lines 32-33),
  * the ban object and its operations `addBan`, `removeBan` and the
    clear-bans handler (lines 21-25, 35-46 and 112),
  * the core of `fetchArtwork` (lines 57-93): filtering the fetched batch by
    the ban sets, picking `eligible[Math.floor(Math.random()*eligible.length)]`
    and normalizing the pick into the displayed fields, with the empty-result
    and catch branches made explicit.

JavaScript conventions are made explicit: a possibly-missing string field is
an `Option String` (`none` = absent/undefined/null), the only falsy string is
`""`, a JS `Set` of strings is a duplicate-free `List String` in insertion
order, and the string-keyed bans object is an association list
`List (String × List String)` so that computed-key updates `{...prev, [attr]: s}`
on unknown attribute names are represented faithfully.
-/

/-- One entry of the raw record's `people` array; only its `name` field is read. -/
structure Contributor where
  name : Option String
deriving DecidableEq, Repr

/-- A raw catalog record as read by `fetchArtwork`: exactly the fields the code
accesses (`title`, `people`, `culture`, `century`, `dated`, `medium`,
`primaryimageurl`), each possibly missing. -/
structure RawRecord where
  title : Option String
  people : Option (List Contributor)
  culture : Option String
  century : Option String
  dated : Option String
  medium : Option String
  primaryimageurl : Option String
deriving DecidableEq, Repr

/-- The displayed artwork fields (the `inputs` state object, App.jsx lines 10-18). -/
structure Inputs where
  Title : String
  Artist : String
  Culture : String
  Century : String
  Date : String
  Medium : String
  Image : String
deriving DecidableEq, Repr

/-- JavaScript `String.prototype.trim`: strips leading and trailing
whitespace. Written by structural recursion over the character list so that
it evaluates on concrete strings. -/
def jsTrim (s : String) : String :=
  String.mk (((s.data.dropWhile Char.isWhitespace).reverse.dropWhile Char.isWhitespace).reverse)

/-- App.jsx line 32: `const safe = (s) => (s && String(s).trim()) || "N/A";`.
A missing or empty (falsy) value, or a value that trims to the empty string,
collapses to `"N/A"`; otherwise the trimmed value is returned. -/
def safe : Option String → String
  | none => "N/A"
  | some s => if s = "" then "N/A" else if jsTrim s = "" then "N/A" else jsTrim s

/-- App.jsx line 33: `const artistOf = (r) => safe(r?.people?.[0]?.name);`. -/
def artistOf (r : RawRecord) : String :=
  safe ((r.people.bind List.head?).bind Contributor.name)

/-- JavaScript `x || "N/A"` on an optional string field (App.jsx lines 80, 84, 85). -/
def orNA : Option String → String
  | none => "N/A"
  | some s => if s = "" then "N/A" else s

/-- The bans object: a string-keyed map from attribute name to a set of banned
values, as a JS object literal holding JS `Set`s (App.jsx lines 21-25). -/
def BanObj : Type := List (String × List String)

instance : DecidableEq BanObj := inferInstanceAs (DecidableEq (List (String × List String)))

/-- Property read `obj[k]` on the bans object: the value at the first (unique)
occurrence of key `k`, or `undefined` (`none`). -/
def objGet : BanObj → String → Option (List String)
  | [], _ => none
  | (k', v') :: rest, k => if k' = k then some v' else objGet rest k

/-- Computed-key object spread `{...prev, [k]: v}`: replaces the value at key
`k` if present, otherwise appends the new key. -/
def objSet : BanObj → String → List String → BanObj
  | [], k, v => [(k, v)]
  | (k', v') :: rest, k, v =>
      if k' = k then (k, v) :: rest else (k', v') :: objSet rest k v

/-- The set of banned values for an attribute, as read by the filter
(`bans.Artist` etc.); a missing key reads as the empty set, matching
`new Set(prev[attr])` on `undefined`. -/
def banSetOf (bans : BanObj) (attr : String) : List String :=
  (objGet bans attr).getD []

/-- JS `Set.prototype.add`: appends the value if not already present. -/
def setAdd (s : List String) (v : String) : List String :=
  if v ∈ s then s else s ++ [v]

/-- JS `Set.prototype.delete`: removes the value if present. -/
def setDelete (s : List String) (v : String) : List String :=
  s.erase v

/-- App.jsx lines 35-38: `addBan(attr, value)` is a no-op for a falsy (empty)
or `"N/A"` value, and otherwise copies the set at `prev[attr]` and adds
`value`, writing it back under the computed key `attr`. -/
def addBan (bans : BanObj) (attr value : String) : BanObj :=
  if value = "" ∨ value = "N/A" then bans
  else objSet bans attr (setAdd (banSetOf bans attr) value)

/-- App.jsx lines 40-46: `removeBan(attr, value)` copies the set at
`prev[attr]`, deletes `value`, and writes it back under key `attr`. -/
def removeBan (bans : BanObj) (attr value : String) : BanObj :=
  objSet bans attr (setDelete (banSetOf bans attr) value)

/-- The initial ban state (App.jsx lines 21-25): three empty sets keyed
`Artist`, `Culture`, `Century`. -/
def initialBans : BanObj :=
  [("Artist", []), ("Culture", []), ("Century", [])]

/-- The Clear Bans handler (App.jsx line 112): a fresh object with the three
sets empty. -/
def clearedBans : BanObj :=
  [("Artist", []), ("Culture", []), ("Century", [])]

/-- The filter predicate of `fetchArtwork` (App.jsx lines 62-70): a record is
retained iff its computed artist, culture and century each avoid the
corresponding ban set. -/
def eligiblePred (bans : BanObj) (r : RawRecord) : Bool :=
  let a := artistOf r
  let cu := safe r.culture
  let ce := safe r.century
  if (banSetOf bans "Artist").contains a then false
  else if (banSetOf bans "Culture").contains cu then false
  else if (banSetOf bans "Century").contains ce then false
  else true

/-- `artworks.filter((r) => ...)` of App.jsx lines 62-70. -/
def eligibleFilter (bans : BanObj) (artworks : List RawRecord) : List RawRecord :=
  artworks.filter (eligiblePred bans)

/-- App.jsx lines 79-87: normalization of the picked record into the displayed
fields. `Artist`, `Culture`, `Century` go through `safe`; `Title`, `Date`,
`Medium` through `|| "N/A"`; `Image` through `|| ""`. -/
def normalizeRecord (pick : RawRecord) : Inputs :=
  { Title := orNA pick.title
    Artist := artistOf pick
    Culture := safe pick.culture
    Century := safe pick.century
    Date := orNA pick.dated
    Medium := orNA pick.medium
    Image := pick.primaryimageurl.getD "" }

/-- The Selector's only error condition. -/
inductive SelectError where
  | EmptyResultError
deriving DecidableEq, Repr

instance : DecidableEq (Except SelectError Inputs) := fun x y =>
  match x, y with
  | Except.error a, Except.error b =>
    if h : a = b then isTrue (by rw [h]) else isFalse (fun he => by cases he; exact h rfl)
  | Except.ok a, Except.ok b =>
    if h : a = b then isTrue (by rw [h]) else isFalse (fun he => by cases he; exact h rfl)
  | Except.error _, Except.ok _ => isFalse (fun he => by cases he)
  | Except.ok _, Except.error _ => isFalse (fun he => by cases he)

/-- `Math.floor(r * n)` for an injected random value `r` (App.jsx line 77). -/
def pickIndex (n : ℕ) (r : ℚ) : ℕ :=
  (Int.floor (r * n)).toNat

/-- The select step of `fetchArtwork` (App.jsx lines 60-87) as a pure function
of the parsed `records` field (`none` = missing/null), the bans and an
injected random value `r` standing for `Math.random()`. Returns `some (.error
EmptyResultError)` when the filtered set is empty (line 72), `some (.ok inputs)`
with the normalized pick otherwise; `none` models the JS crash of reading a
field of `undefined` when the index `⌊r*n⌋` is out of range (impossible for
`r ∈ [0,1)`), which the surrounding `catch` would absorb. -/
def selectArtwork (bans : BanObj) (recordsField : Option (List RawRecord)) (r : ℚ) :
    Option (Except SelectError Inputs) :=
  let artworks := recordsField.getD []
  let eligible := eligibleFilter bans artworks
  if eligible.length = 0 then
    some (Except.error SelectError.EmptyResultError)
  else
    (eligible.get? (pickIndex eligible.length r)).map
      (fun pick => Except.ok (normalizeRecord pick))

/-- The error message of the catch branch (App.jsx line 90). -/
def fetchFailMsg : String := "Couldn’t fetch artwork—try again."

/-- The error message of the empty-result branch (App.jsx line 73). -/
def emptyResultMsg : String := "Nothing found that avoids your ban list. Try clearing some bans."

/-- The mutable application state a discover cycle touches: the displayed
fields, the bans, and the inline error message. -/
structure AppState where
  inputs : Inputs
  bans : BanObj
  error : String
deriving DecidableEq

/-- Outcome of the awaited HTTP request: either the parsed `records` field of
`response?.data` (`none` when missing or null), or a throw (network or
parsing error). -/
inductive FetchOutcome where
  | success (recordsField : Option (List RawRecord))
  | failure
deriving DecidableEq

/-- One discover cycle (the body of `fetchArtwork`, App.jsx lines 57-93) as a
state transition: on a throw the catch branch sets the fetch-failure message;
on an empty filtered set the empty-result message is set and the displayed
fields are untouched; on a successful pick the displayed fields are replaced
wholesale and the error cleared. -/
def fetchArtwork (st : AppState) (outcome : FetchOutcome) (r : ℚ) : AppState :=
  match outcome with
  | FetchOutcome.failure => { st with error := fetchFailMsg }
  | FetchOutcome.success recs =>
    match selectArtwork st.bans recs r with
    | some (Except.error _) => { st with error := emptyResultMsg }
    | some (Except.ok inp) => { st with inputs := inp, error := "" }
    | none => { st with error := fetchFailMsg }

/-- The initial displayed fields (App.jsx lines 10-18): all empty strings. -/
def initialInputs : Inputs :=
  { Title := "", Artist := "", Culture := "", Century := "", Date := "", Medium := "", Image := "" }

/-- The three ban-list operations the UI can invoke, with arbitrary attribute
and value strings. -/
inductive BanOp where
  | add (attr value : String)
  | remove (attr value : String)
  | clear

/-- Apply one ban-list operation. -/
def applyOp (bans : BanObj) : BanOp → BanObj
  | BanOp.add attr value => addBan bans attr value
  | BanOp.remove attr value => removeBan bans attr value
  | BanOp.clear => clearedBans

/-- Apply a sequence of ban-list operations in order. -/
def applyOps (bans : BanObj) (ops : List BanOp) : BanObj :=
  ops.foldl applyOp bans

/-- A raw record with every field absent. -/
def emptyRaw : RawRecord :=
  { title := none, people := none, culture := none, century := none,
    dated := none, medium := none, primaryimageurl := none }

section Helpers

/-- The filter predicate accepts a record exactly when all three computed
attributes avoid their ban sets. -/
theorem eligiblePred_true_iff (bans : BanObj) (r : RawRecord) :
    eligiblePred bans r = true ↔
      artistOf r ∉ banSetOf bans "Artist" ∧
      safe r.culture ∉ banSetOf bans "Culture" ∧
      safe r.century ∉ banSetOf bans "Century" := by
  by_cases hA : artistOf r ∈ banSetOf bans "Artist" <;>
    by_cases hCu : safe r.culture ∈ banSetOf bans "Culture" <;>
      by_cases hCe : safe r.century ∈ banSetOf bans "Century" <;>
        simp [eligiblePred, List.contains, List.elem_iff, hA, hCu, hCe]

end Helpers

/-- C1: any record retained by the filter of `fetchArtwork` has its normalized
artist, culture and century absent from the respective ban sets, and a record
matching any single one of the three bans is excluded from the retained set. -/
theorem eligible_records_avoid_bans (bans : BanObj) (artworks : List RawRecord)
    (rec : RawRecord) :
    (rec ∈ eligibleFilter bans artworks →
      artistOf rec ∉ banSetOf bans "Artist" ∧
      safe rec.culture ∉ banSetOf bans "Culture" ∧
      safe rec.century ∉ banSetOf bans "Century") ∧
    (rec ∈ artworks →
      (artistOf rec ∈ banSetOf bans "Artist" ∨
       safe rec.culture ∈ banSetOf bans "Culture" ∨
       safe rec.century ∈ banSetOf bans "Century") →
      rec ∉ eligibleFilter bans artworks) := by
  constructor
  · intro h
    exact (eligiblePred_true_iff bans rec).1 (List.of_mem_filter h)
  · intro _ hban hcontra
    have h := (eligiblePred_true_iff bans rec).1 (List.of_mem_filter hcontra)
    rcases hban with hb | hb | hb
    · exact h.1 hb
    · exact h.2.1 hb
    · exact h.2.2 hb

/-- C1 witness: a record with no banable attributes survives an empty ban
list, and a record whose culture is banned is excluded. -/
theorem eligible_records_avoid_bans_witness :
    (emptyRaw ∈ eligibleFilter initialBans [emptyRaw] ∧
      (artistOf emptyRaw ∉ banSetOf initialBans "Artist" ∧
       safe emptyRaw.culture ∉ banSetOf initialBans "Culture" ∧
       safe emptyRaw.century ∉ banSetOf initialBans "Century")) ∧
    ({ emptyRaw with culture := some "Greek" } ∈ [{ emptyRaw with culture := some "Greek" }] ∧
      (artistOf { emptyRaw with culture := some "Greek" } ∈
          banSetOf [("Artist", []), ("Culture", ["Greek"]), ("Century", [])] "Artist" ∨
       safe (RawRecord.culture { emptyRaw with culture := some "Greek" }) ∈
          banSetOf [("Artist", []), ("Culture", ["Greek"]), ("Century", [])] "Culture" ∨
       safe (RawRecord.century { emptyRaw with culture := some "Greek" }) ∈
          banSetOf [("Artist", []), ("Culture", ["Greek"]), ("Century", [])] "Century") ∧
      { emptyRaw with culture := some "Greek" } ∉
        eligibleFilter [("Artist", []), ("Culture", ["Greek"]), ("Century", [])]
          [{ emptyRaw with culture := some "Greek" }]) :=
  ⟨⟨by decide,
    (eligible_records_avoid_bans initialBans [emptyRaw] emptyRaw).1 (by decide)⟩,
   by decide, by decide,
    (eligible_records_avoid_bans [("Artist", []), ("Culture", ["Greek"]), ("Century", [])]
      [{ emptyRaw with culture := some "Greek" }] { emptyRaw with culture := some "Greek" }).2
      (by decide) (by decide)⟩

/-- C3: the select step yields `EmptyResultError` exactly when the filtered
set is empty; an empty input batch always yields `EmptyResultError` whatever
the bans; and `EmptyResultError` is the only error the step can produce. -/
theorem selectArtwork_emptyResult_iff (bans : BanObj)
    (recs : Option (List RawRecord)) (r : ℚ) :
    (selectArtwork bans recs r = some (Except.error SelectError.EmptyResultError) ↔
      eligibleFilter bans (recs.getD []) = []) ∧
    (recs.getD [] = [] →
      selectArtwork bans recs r = some (Except.error SelectError.EmptyResultError)) ∧
    (∀ e, selectArtwork bans recs r = some (Except.error e) →
      e = SelectError.EmptyResultError) := by
  have hsel : selectArtwork bans recs r =
      if (eligibleFilter bans (recs.getD [])).length = 0 then
        some (Except.error SelectError.EmptyResultError)
      else
        ((eligibleFilter bans (recs.getD [])).get?
            (pickIndex (eligibleFilter bans (recs.getD [])).length r)).map
          (fun pick => Except.ok (normalizeRecord pick)) := rfl
  refine ⟨?_, ?_, ?_⟩
  · by_cases h : (eligibleFilter bans (recs.getD [])).length = 0
    · simp [hsel, h, List.length_eq_zero.mp h]
    · rw [hsel, if_neg h]
      constructor
      · intro hmap
        cases hget : (eligibleFilter bans (recs.getD [])).get?
            (pickIndex (eligibleFilter bans (recs.getD [])).length r) <;>
          simp [hget] at hmap
      · intro hnil
        exact absurd (by simp [hnil]) h
  · intro hnil
    rw [hsel]
    simp [eligibleFilter, hnil]
  · intro e he
    cases e
    rfl

/-- C3 witness: an empty batch with no bans fails with `EmptyResultError`. -/
theorem selectArtwork_emptyResult_iff_witness :
    (some ([] : List RawRecord)).getD [] = [] ∧
    selectArtwork initialBans (some []) 0 =
      some (Except.error SelectError.EmptyResultError) :=
  ⟨rfl, (selectArtwork_emptyResult_iff initialBans (some []) 0).2.1 rfl⟩

/-- C10: when the parsed response has a missing or null `records` field, the
discover cycle behaves as on an empty batch: it sets the empty-result message
(which differs from the fetch-failure message) and leaves the displayed
artwork untouched. -/
theorem missing_records_treated_as_empty (st : AppState) (r : ℚ) :
    fetchArtwork st (FetchOutcome.success none) r = { st with error := emptyResultMsg } ∧
    (fetchArtwork st (FetchOutcome.success none) r).inputs = st.inputs ∧
    emptyResultMsg ≠ fetchFailMsg := by
  have hsel : selectArtwork st.bans none r =
      some (Except.error SelectError.EmptyResultError) := rfl
  refine ⟨?_, ?_, by decide⟩
  · simp [fetchArtwork, hsel]
  · simp [fetchArtwork, hsel]

/-- C6: a discover cycle that does not produce a successful pick — because the
fetch threw, because the index crashed, or because the filtered set was empty —
leaves the displayed artwork exactly as it was. -/
theorem failed_cycle_preserves_view (st : AppState) (outcome : FetchOutcome) (r : ℚ)
    (h : ∀ recs, outcome = FetchOutcome.success recs →
      ∀ inp, selectArtwork st.bans recs r ≠ some (Except.ok inp)) :
    (fetchArtwork st outcome r).inputs = st.inputs := by
  cases outcome with
  | failure => rfl
  | success recs =>
    cases hsel : selectArtwork st.bans recs r with
    | none => simp [fetchArtwork, hsel]
    | some res =>
      cases res with
      | error e => simp [fetchArtwork, hsel]
      | ok inp => exact absurd hsel (h recs rfl inp)

/-- C6 witness: a cycle whose batch is empty (so the select step fails) keeps
the initial displayed fields. -/
theorem failed_cycle_preserves_view_witness :
    (∀ recs, FetchOutcome.success (some ([] : List RawRecord)) = FetchOutcome.success recs →
      ∀ inp, selectArtwork initialBans recs 0 ≠ some (Except.ok inp)) ∧
    (fetchArtwork ⟨initialInputs, initialBans, ""⟩
        (FetchOutcome.success (some [])) 0).inputs = initialInputs := by
  have h : ∀ recs, FetchOutcome.success (some ([] : List RawRecord)) = FetchOutcome.success recs →
      ∀ inp, selectArtwork initialBans recs 0 ≠ some (Except.ok inp) := by
    intro recs hrecs inp hsel
    cases hrecs
    have hval : selectArtwork initialBans (some []) 0 =
        some (Except.error SelectError.EmptyResultError) := by decide
    rw [hval] at hsel
    simp at hsel
  exact ⟨h, failed_cycle_preserves_view ⟨initialInputs, initialBans, ""⟩
    (FetchOutcome.success (some [])) 0 h⟩

section BanObjLemmas

/-- Reading a key after a computed-key update: the written key returns the new
value, every other key is untouched. -/
theorem objGet_objSet (m : BanObj) (k k' : String) (v : List String) :
    objGet (objSet m k v) k' = if k' = k then some v else objGet m k' := by
  induction m with
  | nil =>
    by_cases h : k' = k
    · simp [objSet, objGet, h]
    · simp [objSet, objGet, h, Ne.symm h]
  | cons hd tl ih =>
    obtain ⟨a, b⟩ := hd
    by_cases hak : a = k
    · subst hak
      by_cases h : k' = a
      · simp [objSet, objGet, h]
      · simp [objSet, objGet, h, Ne.symm h]
    · by_cases h : a = k'
      · subst h
        simp [objSet, objGet, hak]
      · simp [objSet, objGet, hak, h, ih]

/-- Reading a key after a computed-key update, at the level of ban sets. -/
theorem banSetOf_objSet (m : BanObj) (k k' : String) (v : List String) :
    banSetOf (objSet m k v) k' = if k' = k then v else banSetOf m k' := by
  unfold banSetOf
  rw [objGet_objSet]
  by_cases h : k' = k <;> simp [h]

/-- `addBan` leaves every key other than the written one untouched. -/
theorem banSetOf_addBan_ne (b : BanObj) (attr value a : String) (h : a ≠ attr) :
    banSetOf (addBan b attr value) a = banSetOf b a := by
  unfold addBan
  split
  · rfl
  · rw [banSetOf_objSet, if_neg h]

/-- `removeBan` leaves every key other than the written one untouched. -/
theorem banSetOf_removeBan_ne (b : BanObj) (attr value a : String) (h : a ≠ attr) :
    banSetOf (removeBan b attr value) a = banSetOf b a := by
  unfold removeBan
  rw [banSetOf_objSet, if_neg h]

/-- Membership in a JS-set copy-and-add. -/
theorem mem_setAdd (s : List String) (v x : String) :
    x ∈ setAdd s v ↔ x ∈ s ∨ x = v := by
  by_cases hv : v ∈ s
  · simp only [setAdd, if_pos hv]
    exact ⟨fun h => Or.inl h, fun h => h.elim id (fun e => e ▸ hv)⟩
  · simp [setAdd, if_neg hv]

/-- Every ban set of the initial (or cleared) ban object is empty, whatever
key is read. -/
theorem banSetOf_initialBans (a : String) : banSetOf initialBans a = [] := by
  simp only [banSetOf, initialBans, objGet]
  split_ifs <;> rfl

end BanObjLemmas

/-- C9: `addBan` and `removeBan` modify at most the set keyed by the attribute
they are given; every differently keyed ban set is unchanged. -/
theorem ban_ops_frame (b : BanObj) (attr value a : String) (h : a ≠ attr) :
    banSetOf (addBan b attr value) a = banSetOf b a ∧
    banSetOf (removeBan b attr value) a = banSetOf b a :=
  ⟨banSetOf_addBan_ne b attr value a h, banSetOf_removeBan_ne b attr value a h⟩

/-- C9 witness: banning an artist touches neither the culture nor the century
set. -/
theorem ban_ops_frame_witness :
    ("Culture" ≠ "Artist" ∧
      banSetOf (addBan initialBans "Artist" "Rembrandt") "Culture" =
        banSetOf initialBans "Culture" ∧
      banSetOf (removeBan initialBans "Artist" "Rembrandt") "Culture" =
        banSetOf initialBans "Culture") ∧
    ("Century" ≠ "Artist" ∧
      banSetOf (addBan initialBans "Artist" "Rembrandt") "Century" =
        banSetOf initialBans "Century" ∧
      banSetOf (removeBan initialBans "Artist" "Rembrandt") "Century" =
        banSetOf initialBans "Century") :=
  ⟨⟨by decide,
    (ban_ops_frame initialBans "Artist" "Rembrandt" "Culture" (by decide)).1,
    (ban_ops_frame initialBans "Artist" "Rembrandt" "Culture" (by decide)).2⟩,
   ⟨by decide,
    (ban_ops_frame initialBans "Artist" "Rembrandt" "Century" (by decide)).1,
    (ban_ops_frame initialBans "Artist" "Rembrandt" "Century" (by decide)).2⟩⟩

section SentinelInvariant

/-- One ban-list operation preserves the absence of the sentinel from every
ban set. -/
theorem na_not_mem_applyOp (b : BanObj) (op : BanOp)
    (h : ∀ a, "N/A" ∉ banSetOf b a) :
    ∀ a, "N/A" ∉ banSetOf (applyOp b op) a := by
  cases op with
  | add attr value =>
    intro a
    simp only [applyOp, addBan]
    split
    · exact h a
    · rename_i hv
      rw [banSetOf_objSet]
      split
      · intro hmem
        rcases (mem_setAdd _ _ _).1 hmem with h1 | h1
        · exact h attr h1
        · exact hv (Or.inr h1.symm)
      · exact h a
  | remove attr value =>
    intro a
    simp only [applyOp, removeBan]
    rw [banSetOf_objSet]
    split
    · intro hmem
      exact h attr (List.mem_of_mem_erase (by simpa [setDelete] using hmem))
    · exact h a
  | clear =>
    intro a
    have hcl : banSetOf clearedBans a = [] := banSetOf_initialBans a
    simp only [applyOp, hcl]
    exact List.not_mem_nil _

/-- A sequence of ban-list operations preserves the absence of the sentinel. -/
theorem na_not_mem_applyOps (ops : List BanOp) :
    ∀ b : BanObj, (∀ a, "N/A" ∉ banSetOf b a) →
      ∀ a, "N/A" ∉ banSetOf (applyOps b ops) a := by
  induction ops with
  | nil => intro b h; exact h
  | cons op rest ih =>
    intro b h
    exact ih (applyOp b op) (na_not_mem_applyOp b op h)

end SentinelInvariant

/-- C5: in every ban state reachable from the initial one by any sequence of
`addBan`/`removeBan`/clear operations, the sentinel `"N/A"` belongs to none of
the three ban sets; and `addBan` is a no-op for an empty or `"N/A"` value. -/
theorem sentinel_never_banned :
    (∀ ops : List BanOp,
      "N/A" ∉ banSetOf (applyOps initialBans ops) "Artist" ∧
      "N/A" ∉ banSetOf (applyOps initialBans ops) "Culture" ∧
      "N/A" ∉ banSetOf (applyOps initialBans ops) "Century") ∧
    (∀ (b : BanObj) (attr : String), addBan b attr "" = b ∧ addBan b attr "N/A" = b) := by
  constructor
  · intro ops
    have base : ∀ a, "N/A" ∉ banSetOf initialBans a := by
      intro a
      rw [banSetOf_initialBans]
      exact List.not_mem_nil _
    have h := na_not_mem_applyOps ops initialBans base
    exact ⟨h "Artist", h "Culture", h "Century"⟩
  · intro b attr
    constructor <;> simp [addBan]

/-- The cleared ban object reads as empty at every key. -/
theorem banSetOf_clearedBans (a : String) : banSetOf clearedBans a = [] :=
  banSetOf_initialBans a

/-- C8: clearing the bans resets all three sets to empty at once, after which
the filter retains every record and the select step behaves exactly as with
the empty ban configuration. -/
theorem clearBans_resets_and_selects_freely (b : BanObj) (artworks : List RawRecord)
    (recs : Option (List RawRecord)) (r : ℚ) :
    applyOp b BanOp.clear = initialBans ∧
    banSetOf (applyOp b BanOp.clear) "Artist" = [] ∧
    banSetOf (applyOp b BanOp.clear) "Culture" = [] ∧
    banSetOf (applyOp b BanOp.clear) "Century" = [] ∧
    eligibleFilter (applyOp b BanOp.clear) artworks = artworks ∧
    selectArtwork (applyOp b BanOp.clear) recs r = selectArtwork initialBans recs r := by
  refine ⟨rfl, banSetOf_clearedBans _, banSetOf_clearedBans _, banSetOf_clearedBans _, ?_, rfl⟩
  have hpred : ∀ rec : RawRecord, eligiblePred clearedBans rec = true := by
    intro rec
    refine (eligiblePred_true_iff clearedBans rec).2 ⟨?_, ?_, ?_⟩ <;>
      · rw [banSetOf_clearedBans]
        exact List.not_mem_nil _
  show eligibleFilter clearedBans artworks = artworks
  unfold eligibleFilter
  induction artworks with
  | nil => rfl
  | cons hd tl ih => simp [List.filter_cons, hpred hd, ih]

/-- C7 counterexample: calling `addBan` with the untracked attribute name
`"Medium"` raises no error; it silently extends the bans object with a new
key holding the value. -/
theorem addBan_unknown_attr_counterexample :
    addBan initialBans "Medium" "Clay" =
      [("Artist", []), ("Culture", []), ("Century", []), ("Medium", ["Clay"])] ∧
    addBan initialBans "Medium" "Clay" ≠ initialBans :=
  ⟨by decide, by decide⟩

/-- C7 (amended): `addBan`/`removeBan` with an attribute name outside the
three tracked ones do not fail; they operate on a fresh entry under the given
key — recording the value there — while leaving the three tracked ban sets
unchanged. -/
theorem addBan_unknown_attr_silent (b : BanObj) (attr value : String)
    (hA : attr ≠ "Artist") (hCu : attr ≠ "Culture") (hCe : attr ≠ "Century") :
    banSetOf (addBan b attr value) "Artist" = banSetOf b "Artist" ∧
    banSetOf (addBan b attr value) "Culture" = banSetOf b "Culture" ∧
    banSetOf (addBan b attr value) "Century" = banSetOf b "Century" ∧
    banSetOf (removeBan b attr value) "Artist" = banSetOf b "Artist" ∧
    banSetOf (removeBan b attr value) "Culture" = banSetOf b "Culture" ∧
    banSetOf (removeBan b attr value) "Century" = banSetOf b "Century" ∧
    (value ≠ "" → value ≠ "N/A" →
      banSetOf (addBan b attr value) attr = setAdd (banSetOf b attr) value) := by
  refine ⟨banSetOf_addBan_ne b attr value _ (Ne.symm hA),
          banSetOf_addBan_ne b attr value _ (Ne.symm hCu),
          banSetOf_addBan_ne b attr value _ (Ne.symm hCe),
          banSetOf_removeBan_ne b attr value _ (Ne.symm hA),
          banSetOf_removeBan_ne b attr value _ (Ne.symm hCu),
          banSetOf_removeBan_ne b attr value _ (Ne.symm hCe), ?_⟩
  intro h1 h2
  unfold addBan
  rw [if_neg (by tauto), banSetOf_objSet, if_pos rfl]

/-- C7 witness: adding a ban under `"Medium"` leaves the three tracked sets
unchanged and records the value under the new key. -/
theorem addBan_unknown_attr_silent_witness :
    "Medium" ≠ "Artist" ∧ "Medium" ≠ "Culture" ∧ "Medium" ≠ "Century" ∧
    banSetOf (addBan initialBans "Medium" "Clay") "Artist" = banSetOf initialBans "Artist" ∧
    banSetOf (addBan initialBans "Medium" "Clay") "Culture" = banSetOf initialBans "Culture" ∧
    banSetOf (addBan initialBans "Medium" "Clay") "Century" = banSetOf initialBans "Century" ∧
    banSetOf (removeBan initialBans "Medium" "Clay") "Artist" = banSetOf initialBans "Artist" ∧
    banSetOf (removeBan initialBans "Medium" "Clay") "Culture" = banSetOf initialBans "Culture" ∧
    banSetOf (removeBan initialBans "Medium" "Clay") "Century" = banSetOf initialBans "Century" ∧
    banSetOf (addBan initialBans "Medium" "Clay") "Medium" =
      setAdd (banSetOf initialBans "Medium") "Clay" := by
  have T := addBan_unknown_attr_silent initialBans "Medium" "Clay"
    (by decide) (by decide) (by decide)
  exact ⟨by decide, by decide, by decide, T.1, T.2.1, T.2.2.1, T.2.2.2.1,
    T.2.2.2.2.1, T.2.2.2.2.2.1, T.2.2.2.2.2.2 (by decide) (by decide)⟩

/-- C4 counterexample: a whitespace-only title is displayed verbatim, not
collapsed to the sentinel `"N/A"`. -/
theorem whitespace_title_passes_through :
    (normalizeRecord { emptyRaw with title := some " " }).Title = " " ∧
    " " ≠ "N/A" :=
  ⟨by decide, by decide⟩

/-- A field whose every possible value trims to the empty string is collapsed
to the sentinel by `safe`. -/
theorem safe_blank_eq_na (o : Option String) (h : ∀ s, o = some s → jsTrim s = "") :
    safe o = "N/A" := by
  cases o with
  | none => rfl
  | some s =>
    have hs := h s rfl
    by_cases h0 : s = "" <;> simp [safe, h0, hs]

/-- C4 (amended): normalization collapses a missing, empty or whitespace-only
artist, culture or century to `"N/A"`; for title, date and medium only a
missing or empty field collapses to `"N/A"` (a whitespace-only value passes
through verbatim), and only a missing or empty image URL collapses to `""`. -/
theorem normalization_blank_fields (rec : RawRecord) :
    ((rec.title = none ∨ rec.title = some "") → (normalizeRecord rec).Title = "N/A") ∧
    ((∀ s, (rec.people.bind List.head?).bind Contributor.name = some s → jsTrim s = "") →
      (normalizeRecord rec).Artist = "N/A") ∧
    ((∀ s, rec.culture = some s → jsTrim s = "") → (normalizeRecord rec).Culture = "N/A") ∧
    ((∀ s, rec.century = some s → jsTrim s = "") → (normalizeRecord rec).Century = "N/A") ∧
    ((rec.dated = none ∨ rec.dated = some "") → (normalizeRecord rec).Date = "N/A") ∧
    ((rec.medium = none ∨ rec.medium = some "") → (normalizeRecord rec).Medium = "N/A") ∧
    ((rec.primaryimageurl = none ∨ rec.primaryimageurl = some "") →
      (normalizeRecord rec).Image = "") := by
  refine ⟨?_, ?_, ?_, ?_, ?_, ?_, ?_⟩
  · rintro (h | h) <;> simp [normalizeRecord, orNA, h]
  · intro h
    exact safe_blank_eq_na _ h
  · intro h
    exact safe_blank_eq_na _ h
  · intro h
    exact safe_blank_eq_na _ h
  · rintro (h | h) <;> simp [normalizeRecord, orNA, h]
  · rintro (h | h) <;> simp [normalizeRecord, orNA, h]
  · rintro (h | h) <;> simp [normalizeRecord, h]

/-- C4 witness: the all-missing record normalizes to `"N/A"` everywhere and an
empty image URL. -/
theorem normalization_blank_fields_witness :
    (emptyRaw.title = none ∨ emptyRaw.title = some "") ∧
    (∀ s, (emptyRaw.people.bind List.head?).bind Contributor.name = some s → jsTrim s = "") ∧
    (∀ s, emptyRaw.culture = some s → jsTrim s = "") ∧
    (∀ s, emptyRaw.century = some s → jsTrim s = "") ∧
    (emptyRaw.dated = none ∨ emptyRaw.dated = some "") ∧
    (emptyRaw.medium = none ∨ emptyRaw.medium = some "") ∧
    (emptyRaw.primaryimageurl = none ∨ emptyRaw.primaryimageurl = some "") ∧
    (normalizeRecord emptyRaw).Title = "N/A" ∧
    (normalizeRecord emptyRaw).Artist = "N/A" ∧
    (normalizeRecord emptyRaw).Culture = "N/A" ∧
    (normalizeRecord emptyRaw).Century = "N/A" ∧
    (normalizeRecord emptyRaw).Date = "N/A" ∧
    (normalizeRecord emptyRaw).Medium = "N/A" ∧
    (normalizeRecord emptyRaw).Image = "" := by
  have T := normalization_blank_fields emptyRaw
  refine ⟨Or.inl rfl, ?_, ?_, ?_, Or.inl rfl, Or.inl rfl, Or.inl rfl,
    T.1 (Or.inl rfl), T.2.1 ?_, T.2.2.1 ?_, T.2.2.2.1 ?_, T.2.2.2.2.1 (Or.inl rfl),
    T.2.2.2.2.2.1 (Or.inl rfl), T.2.2.2.2.2.2 (Or.inl rfl)⟩ <;>
    · intro s hs
      exact nomatch hs

section PickIndex

/-- For a random value in `[0,1)` the picked index is in range. -/
theorem pickIndex_lt (n : ℕ) (r : ℚ) (hn : n ≠ 0) (hr0 : 0 ≤ r) (hr1 : r < 1) :
    pickIndex n r < n := by
  have hn' : (0:ℚ) < n := by
    exact_mod_cast Nat.pos_of_ne_zero hn
  have hmul : r * (n:ℚ) < n := by
    calc r * (n:ℚ) < 1 * n := mul_lt_mul_of_pos_right hr1 hn'
    _ = n := one_mul _
  have h2 : Int.floor (r * (n:ℚ)) < (n : ℤ) := by
    apply Int.floor_lt.mpr
    push_cast
    exact hmul
  have h1 : (0:ℤ) ≤ Int.floor (r * (n:ℚ)) :=
    Int.floor_nonneg.mpr (mul_nonneg hr0 (le_of_lt hn'))
  simp only [pickIndex]
  omega

/-- Characterization of the picked index for a nonnegative random value. -/
theorem pickIndex_eq_iff (n : ℕ) (s : ℚ) (i : ℕ) (hs0 : 0 ≤ s) :
    pickIndex n s = i ↔ (i:ℚ) ≤ s * n ∧ s * n < (i:ℚ) + 1 := by
  have h0 : (0:ℤ) ≤ Int.floor (s * (n:ℚ)) :=
    Int.floor_nonneg.mpr (mul_nonneg hs0 (Nat.cast_nonneg n))
  have key : Int.floor (s * (n:ℚ)) = (i:ℤ) ↔ (i:ℚ) ≤ s * n ∧ s * n < (i:ℚ) + 1 := by
    rw [Int.floor_eq_iff]
    push_cast
    exact Iff.rfl
  constructor
  · intro h
    apply key.mp
    simp only [pickIndex] at h
    omega
  · intro h
    have hfl := key.mpr h
    simp only [pickIndex]
    omega

/-- The set of random values sending the pick to index `i` is exactly the
half-open interval `[i/n, (i+1)/n)`, of length `1/n`. -/
theorem pickIndex_fiber (n i : ℕ) (hn : n ≠ 0) (hi : i < n) :
    {s : ℚ | s ∈ Set.Ico (0:ℚ) 1 ∧ pickIndex n s = i} =
      Set.Ico ((i:ℚ) / n) (((i:ℚ) + 1) / n) := by
  have hn' : (0:ℚ) < n := by
    exact_mod_cast Nat.pos_of_ne_zero hn
  ext s
  simp only [Set.mem_setOf_eq, Set.mem_Ico]
  constructor
  · rintro ⟨⟨hs0, _⟩, hp⟩
    obtain ⟨h1, h2⟩ := (pickIndex_eq_iff n s i hs0).mp hp
    exact ⟨(div_le_iff₀ hn').mpr h1, (lt_div_iff₀ hn').mpr h2⟩
  · rintro ⟨h1, h2⟩
    have hs0 : (0:ℚ) ≤ s :=
      le_trans (div_nonneg (Nat.cast_nonneg i) (le_of_lt hn')) h1
    have hin : (i:ℚ) + 1 ≤ (n:ℚ) := by
      have hnat : (i + 1 : ℕ) ≤ n := hi
      exact_mod_cast hnat
    have hs1 : s < 1 :=
      lt_of_lt_of_le h2 (by rw [div_le_one hn']; exact hin)
    exact ⟨⟨hs0, hs1⟩,
      (pickIndex_eq_iff n s i hs0).mpr ⟨(div_le_iff₀ hn').mp h1, (lt_div_iff₀ hn').mp h2⟩⟩

end PickIndex

/-- C2: on a non-empty retained set of `n` records the select step returns the
element at index `⌊r·n⌋` in normalized form, and for each index `i < n` the
set of random values choosing it is the interval `[i/n, (i+1)/n)` of length
`1/n` — every retained element is chosen with equal probability. -/
theorem selector_pick_uniform (bans : BanObj) (recs : Option (List RawRecord)) (r : ℚ)
    (hr0 : 0 ≤ r) (hr1 : r < 1)
    (hne : eligibleFilter bans (recs.getD []) ≠ []) :
    ∃ h : pickIndex (eligibleFilter bans (recs.getD [])).length r <
        (eligibleFilter bans (recs.getD [])).length,
      selectArtwork bans recs r =
        some (Except.ok (normalizeRecord ((eligibleFilter bans (recs.getD [])).get
          ⟨pickIndex (eligibleFilter bans (recs.getD [])).length r, h⟩))) ∧
      ∀ i : ℕ, i < (eligibleFilter bans (recs.getD [])).length →
        {s : ℚ | s ∈ Set.Ico (0:ℚ) 1 ∧
            pickIndex (eligibleFilter bans (recs.getD [])).length s = i} =
          Set.Ico ((i:ℚ) / (eligibleFilter bans (recs.getD [])).length)
            (((i:ℚ) + 1) / (eligibleFilter bans (recs.getD [])).length) := by
  have hn : (eligibleFilter bans (recs.getD [])).length ≠ 0 := by
    intro h0
    exact hne (List.length_eq_zero.mp h0)
  have hlt := pickIndex_lt _ r hn hr0 hr1
  refine ⟨hlt, ?_, ?_⟩
  · have hsel : selectArtwork bans recs r =
        if (eligibleFilter bans (recs.getD [])).length = 0 then
          some (Except.error SelectError.EmptyResultError)
        else
          ((eligibleFilter bans (recs.getD [])).get?
              (pickIndex (eligibleFilter bans (recs.getD [])).length r)).map
            (fun pick => Except.ok (normalizeRecord pick)) := rfl
    rw [hsel, if_neg hn, List.get?_eq_get hlt]
    rfl
  · intro i hi
    exact pickIndex_fiber _ i hn hi

/-- C2 witness: with no bans, a one-record batch and random value `0`, the
select step returns that record normalized and the fiber description holds. -/
theorem selector_pick_uniform_witness :
    (0:ℚ) ≤ 0 ∧ (0:ℚ) < 1 ∧
    eligibleFilter initialBans ((some [emptyRaw] : Option (List RawRecord)).getD []) ≠ [] ∧
    (∃ h : pickIndex
        (eligibleFilter initialBans ((some [emptyRaw] : Option (List RawRecord)).getD [])).length 0 <
        (eligibleFilter initialBans ((some [emptyRaw] : Option (List RawRecord)).getD [])).length,
      selectArtwork initialBans (some [emptyRaw]) 0 =
        some (Except.ok (normalizeRecord
          ((eligibleFilter initialBans ((some [emptyRaw] : Option (List RawRecord)).getD [])).get
            ⟨pickIndex (eligibleFilter initialBans
                ((some [emptyRaw] : Option (List RawRecord)).getD [])).length 0, h⟩))) ∧
      ∀ i : ℕ, i < (eligibleFilter initialBans
          ((some [emptyRaw] : Option (List RawRecord)).getD [])).length →
        {s : ℚ | s ∈ Set.Ico (0:ℚ) 1 ∧
            pickIndex (eligibleFilter initialBans
              ((some [emptyRaw] : Option (List RawRecord)).getD [])).length s = i} =
          Set.Ico ((i:ℚ) / (eligibleFilter initialBans
              ((some [emptyRaw] : Option (List RawRecord)).getD [])).length)
            (((i:ℚ) + 1) / (eligibleFilter initialBans
              ((some [emptyRaw] : Option (List RawRecord)).getD [])).length)) :=
  ⟨le_refl 0, zero_lt_one, by decide,
    selector_pick_uniform initialBans (some [emptyRaw]) 0 (le_refl 0) zero_lt_one (by decide)⟩
